import Mathlib

/-!
Verification of the Text_To_Speech demo script (`src/index.js`) and the
utterance-playback-controller design described in the repository's notes.

The script wires three DOM event handlers around the browser's Web Speech
API:

* `speechSynthesis.onvoiceschanged` stores the new voice snapshot in the
  global `voices` array, sets `speech.voice = voices[0]`, and overwrites the
  dropdown entries `voiceSelect.options[i]` for each index of the snapshot;
* the `change` listener of the select sets
  `speech.voice = voices[voiceSelect.value]`;
* the button `click` listener sets `speech.text` from the textarea and calls
  `speechSynthesis.speak(speech)`, which appends the (single, shared)
  utterance object to the engine's pending FIFO queue.

We embed the mutable globals of the script, the relevant DOM state and the
engine queue as one state record, each event handler as a state
transformer, and the set of states the program can reach as an inductive
predicate.  The speech engine itself (`window.speechSynthesis`) is a
platform capability, not code of this repository; its queue discipline and
its `pause`/`resume`/`cancel` operations, as well as the controller's
clamping setters for rate/pitch/volume, are modelled from the
specification.
-/

/-- A platform voice (`SpeechSynthesisVoice`): name, language tag,
default-flag, locality-flag. -/
structure Voice where
  name : String
  lang : String
  default : Bool
  localService : Bool
deriving DecidableEq, Repr

/-- The fields of a `SpeechSynthesisUtterance` object: the text to be
spoken, the selected voice (`none` models `null`/`undefined`), and the
numeric rate, pitch and volume settings.  JavaScript numbers are modelled
as rationals; the clamping comparisons involved are exact. -/
structure SpeechSynthesisUtterance where
  text : String
  voice : Option Voice
  rate : Rat
  pitch : Rat
  volume : Rat
deriving DecidableEq, Repr

/-- `new SpeechSynthesisUtterance()`: empty text, no voice selected, and
the documented defaults rate 1, pitch 1, volume 1. -/
def newUtterance : SpeechSynthesisUtterance :=
  { text := "", voice := none, rate := 1, pitch := 1, volume := 1 }

/-- A dropdown entry: `new Option(voice.name, i)` holds the display text
and the value (the index `i`, stringified in JS, kept as a `Nat` here). -/
structure OptionEl where
  text : String
  value : Nat
deriving DecidableEq, Repr

/-- The state of the script: the single utterance object `speech`, the
global `voices` array (the latest catalog snapshot), the dropdown's option
list and current value, the engine's pending queue (a list of object
references, i.e. heap addresses), the engine's paused flag, and the list
of utterance objects allocated so far (addresses). -/
structure ScriptState where
  speech : SpeechSynthesisUtterance
  voices : List Voice
  options : List OptionEl
  selectValue : Nat
  queue : List Nat
  paused : Bool
  allocated : List Nat
deriving DecidableEq, Repr

/-- The heap address of the one utterance object the script allocates
(`let speech = new SpeechSynthesisUtterance()` at the top of the file). -/
def speechAddr : Nat := 0

/-- The state right after the top-level statements of `index.js` ran:
one utterance allocated, empty voice list, nothing queued. -/
def initState : ScriptState :=
  { speech := newUtterance, voices := [], options := [], selectValue := 0,
    queue := [], paused := false, allocated := [speechAddr] }

/-- Dereference an object address: the only utterance object that ever
exists lives at `speechAddr` and its current field values are
`s.speech`. -/
def deref (s : ScriptState) (a : Nat) : Option SpeechSynthesisUtterance :=
  if a = speechAddr then some s.speech else none

/-- The option list built by the handler's
`voices.forEach((voice, i) => (voiceSelect.options[i] = new Option(voice.name, i)))`,
with `k` the index of the first element. -/
def optionsOf (k : Nat) : List Voice → List OptionEl
  | [] => []
  | v :: vs => { text := v.name, value := k } :: optionsOf (k + 1) vs

/-- Overwriting `options[i]` for `i = 0 .. new.length - 1` on an
`HTMLOptionsCollection`: indices below `new.length` are replaced, surplus
old entries are kept. -/
def writeOptions (old new : List OptionEl) : List OptionEl :=
  new ++ old.drop new.length

/-- The `speechSynthesis.onvoiceschanged` handler (src/index.js lines
10-15): store the new snapshot in `voices`, set `speech.voice = voices[0]`
(`undefined`, i.e. `none`, when the snapshot is empty), and overwrite the
dropdown options at the snapshot's indices. -/
def onvoiceschanged (vs : List Voice) (s : ScriptState) : ScriptState :=
  { s with voices := vs,
           speech := { s.speech with voice := vs.head? },
           options := writeOptions s.options (optionsOf 0 vs) }

/-- The select's `change` listener (src/index.js lines 17-19): the user
picked the option with value `v`, so `voiceSelect.value = v` and
`speech.voice = voices[v]` (`undefined`, i.e. `none`, when `v` is out of
range).  Total: an unresolved reference assigns `undefined` and never
throws. -/
def changeListener (v : Nat) (s : ScriptState) : ScriptState :=
  { s with selectValue := v,
           speech := { s.speech with voice := s.voices.get? v } }

/-- The button's `click` listener (src/index.js lines 22-26):
`speech.text = textarea.value` followed by
`window.speechSynthesis.speak(speech)`, which appends a reference to the
shared utterance object to the engine's pending FIFO queue (queue
semantics of the platform engine, per the spec's SpeechEngine interface). -/
def clickListener (t : String) (s : ScriptState) : ScriptState :=
  { s with speech := { s.speech with text := t },
           queue := s.queue ++ [speechAddr] }

/-- Modelled from the spec: `speechSynthesis.pause()` — the SpeechEngine
capability is external to this repository; per the spec,
pause affects only the current playback, not the pending queue. -/
def enginePause (s : ScriptState) : ScriptState :=
  { s with paused := true }

/-- Modelled from the spec: `speechSynthesis.resume()` — resumes the
current playback only; the pending queue is untouched. -/
def engineResume (s : ScriptState) : ScriptState :=
  { s with paused := false }

/-- Modelled from the spec: `speechSynthesis.cancel()` — clears the
entire pending queue (not just the current utterance).  Total: calling it
with nothing queued is a no-op, not an error. -/
def engineCancel (s : ScriptState) : ScriptState :=
  { s with queue := [] }

/-- Modelled from the spec: the engine finishing the current utterance —
the head of the pending queue is removed. -/
def engineEnded (s : ScriptState) : ScriptState :=
  { s with queue := s.queue.drop 1 }

/-- The states the program can reach: the initial state, followed by any
interleaving of the three wired event handlers and the engine's own
transitions. -/
inductive Reachable : ScriptState → Prop
  | init : Reachable initState
  | voiceschanged {s : ScriptState} (vs : List Voice) :
      Reachable s → Reachable (onvoiceschanged vs s)
  | change {s : ScriptState} (v : Nat) :
      Reachable s → Reachable (changeListener v s)
  | click {s : ScriptState} (t : String) :
      Reachable s → Reachable (clickListener t s)
  | pause {s : ScriptState} : Reachable s → Reachable (enginePause s)
  | resume {s : ScriptState} : Reachable s → Reachable (engineResume s)
  | cancel {s : ScriptState} : Reachable s → Reachable (engineCancel s)
  | ended {s : ScriptState} : Reachable s → Reachable (engineEnded s)

/-- Clamp `v` into the closed interval from `lo` to `hi`. -/
def clamp (lo hi v : Rat) : Rat := max lo (min hi v)

/-- Modelled from the spec: the controller's `setRate` — absent from
src/index.js, specified as clamping to the platform range from 1/10
to 10; out-of-range input is clamped, not rejected. -/
def setRate (v : Rat) (u : SpeechSynthesisUtterance) : SpeechSynthesisUtterance :=
  { u with rate := clamp (1/10) 10 v }

/-- Modelled from the spec: the controller's `setPitch` — absent from
src/index.js, specified as clamping to the platform range from 0 to 2. -/
def setPitch (v : Rat) (u : SpeechSynthesisUtterance) : SpeechSynthesisUtterance :=
  { u with pitch := clamp 0 2 v }

/-- Modelled from the spec: the controller's `setVolume` — absent from
src/index.js, specified as clamping to the platform range from 0 to 1. -/
def setVolume (v : Rat) (u : SpeechSynthesisUtterance) : SpeechSynthesisUtterance :=
  { u with volume := clamp 0 1 v }

/-- The voice the engine actually uses: the selected voice when one is
set, otherwise the engine default. -/
def effectiveVoice (u : SpeechSynthesisUtterance) (engineDefault : Voice) : Voice :=
  u.voice.getD engineDefault

/-- Modelled from the spec: the lifecycle states of a single utterance,
`queued → speaking → (ended | errored)` with a `speaking → paused →
speaking` sub-loop and a terminal `cleared` state reached by
cancellation. -/
inductive UttPhase
  | queued | speaking | pausedP | ended | errored | cleared
deriving DecidableEq, Repr

/-- The commands and engine events that drive a single utterance's
lifecycle. -/
inductive LifeEv
  | start | finish | pauseE | resumeE | errorE | cancelE
deriving DecidableEq, Repr

/-- Modelled from the spec: the single-utterance state machine.  `none`
means the event is not a transition of that state; `cancelE` is valid
from any state and forces `cleared`. -/
def lifecycleStep : UttPhase → LifeEv → Option UttPhase
  | .queued, .start => some .speaking
  | .speaking, .finish => some .ended
  | .speaking, .pauseE => some .pausedP
  | .speaking, .errorE => some .errored
  | .pausedP, .resumeE => some .speaking
  | _, .cancelE => some .cleared
  | _, _ => none

/-- The lifecycle notification each event fires toward the UI collaborator
(the spec's `started`, `ended`, `paused`, `resumed`, `errored` stream);
cancellation fires none — in particular no `ended`. -/
inductive Notif
  | started | ended | pausedN | resumedN | erroredN
deriving DecidableEq, Repr

/-- Which notification an event emits.  Modelled from the spec:
cancellation reaches `cleared` without firing `ended`. -/
def notifOf : LifeEv → Option Notif
  | .start => some .started
  | .finish => some .ended
  | .pauseE => some .pausedN
  | .resumeE => some .resumedN
  | .errorE => some .erroredN
  | .cancelE => none

/-- All lifecycle events, for exhaustive checks. -/
def allLifeEvs : List LifeEv :=
  [.start, .finish, .pauseE, .resumeE, .errorE, .cancelE]

/-- A phase is terminal when no event moves out of it. -/
def isTerminalB (p : UttPhase) : Bool :=
  allLifeEvs.all fun e =>
    match lifecycleStep p e with
    | none => true
    | some q => q == p

/-- A sample voice for concrete evaluations. -/
def voiceA : Voice :=
  { name := "Google US English", lang := "en-US", default := true, localService := false }

/-- A second sample voice for concrete evaluations. -/
def voiceB : Voice :=
  { name := "Microsoft Zira Desktop", lang := "en-US", default := false, localService := true }

/-! ## Helper lemmas -/

theorem optionsOf_length (k : Nat) (vs : List Voice) :
    (optionsOf k vs).length = vs.length := by
  induction vs generalizing k with
  | nil => rfl
  | cons v vs ih => simp [optionsOf, ih]

theorem optionsOf_get? (vs : List Voice) (k i : Nat) :
    (optionsOf k vs).get? i =
      (vs.get? i).map fun v => { text := v.name, value := k + i } := by
  induction vs generalizing k i with
  | nil => simp [optionsOf]
  | cons v vs ih =>
    cases i with
    | zero => simp [optionsOf]
    | succ i =>
      show (optionsOf (k + 1) vs).get? i =
        Option.map (fun v => { text := v.name, value := k + (i + 1) }) (vs.get? i)
      rw [show k + (i + 1) = k + 1 + i by omega]
      exact ih (k + 1) i

theorem reachable_alloc_queue {s : ScriptState} (h : Reachable s) :
    s.allocated = [speechAddr] ∧ ∀ a ∈ s.queue, a = speechAddr := by
  induction h with
  | init => exact ⟨rfl, by simp [initState]⟩
  | voiceschanged vs _ ih => exact ih
  | change v _ ih => exact ih
  | click t _ ih =>
    refine ⟨ih.1, fun a ha => ?_⟩
    rcases List.mem_append.mp ha with h1 | h1
    · exact ih.2 a h1
    · simpa using h1
  | pause _ ih => exact ih
  | resume _ ih => exact ih
  | cancel _ ih => exact ⟨ih.1, by simp [engineCancel]⟩
  | ended _ ih => exact ⟨ih.1, fun a ha => ih.2 a (List.mem_of_mem_drop ha)⟩

theorem reachable_voice_in_catalog {s : ScriptState} (h : Reachable s) :
    ∀ v : Voice, s.speech.voice = some v → v ∈ s.voices := by
  induction h with
  | init => intro v hv; simp [initState, newUtterance] at hv
  | voiceschanged vs _ _ =>
    intro v hv
    have hv' : vs.head? = some v := hv
    show v ∈ vs
    cases vs with
    | nil => simp at hv'
    | cons x xs => simp at hv'; simp [hv']
  | change w _ _ =>
    intro v hv
    exact List.get?_mem (hv : _ = some v)
  | click t _ ih => exact ih
  | pause _ ih => exact ih
  | resume _ ih => exact ih
  | cancel _ ih => exact ih
  | ended _ ih => exact ih

/-! ## Claim theorems -/

/-- C1: On every catalog reload notification (the `onvoiceschanged`
handler), the selected voice is reset to the first voice of the new
snapshot (`voices[0]`, i.e. `none` when the snapshot is empty) — in
particular a previously chosen voice that survives the reload is still
discarded in favor of the first voice — and consequently, in every
reachable state, a non-null selected voice references a voice present in
the latest catalog snapshot. -/
theorem c1_reload_resets_selection_to_first :
    (∀ (s : ScriptState) (vs : List Voice),
      (onvoiceschanged vs s).speech.voice = vs.head?) ∧
    (∀ s : ScriptState, Reachable s →
      ∀ v : Voice, s.speech.voice = some v → v ∈ s.voices) :=
  ⟨fun _ _ => rfl, fun _ hs => reachable_voice_in_catalog hs⟩

/-- Witness for C1 at a concrete reachable state: after a reload to
`[voiceB, voiceA]` the selected voice `voiceB` is in the snapshot. -/
theorem c1_reload_resets_selection_to_first_witness :
    voiceB ∈ (onvoiceschanged [voiceB, voiceA] initState).voices :=
  c1_reload_resets_selection_to_first.2 _
    (Reachable.voiceschanged [voiceB, voiceA] Reachable.init) voiceB rfl

/-- C3: Invoking `onvoiceschanged` twice in succession with the same
snapshot leaves the selected voice — indeed the entire script state —
identical to invoking it once, for every snapshot including the empty
one. -/
theorem c3_onCatalogReady_idempotent :
    ∀ (s : ScriptState) (vs : List Voice),
      (onvoiceschanged vs (onvoiceschanged vs s)).speech.voice =
        (onvoiceschanged vs s).speech.voice ∧
      onvoiceschanged vs (onvoiceschanged vs s) = onvoiceschanged vs s := by
  intro s vs
  have h : onvoiceschanged vs (onvoiceschanged vs s) = onvoiceschanged vs s := by
    simp [onvoiceschanged, writeOptions, List.drop_left]
  exact ⟨congrArg (fun st => st.speech.voice) h, h⟩

/-- C5: `setVoice` (the select's `change` listener) never throws: when
the reference does not resolve in the current catalog — catalog empty or
index out of range — the call completes (it is a total function), the
selected voice becomes `none`, and the effective voice falls back to the
engine default. -/
theorem c5_setVoice_silent_fallback :
    ∀ (s : ScriptState) (i : Nat) (d : Voice),
      s.voices.length ≤ i →
      (changeListener i s).speech.voice = none ∧
      effectiveVoice (changeListener i s).speech d = d := by
  intro s i d h
  have hv : (changeListener i s).speech.voice = none := by
    show s.voices.get? i = none
    exact List.get?_eq_none.mpr h
  exact ⟨hv, by simp [effectiveVoice, hv]⟩

/-- Witness for C5: selecting index 3 in the initial (empty) catalog
yields no selected voice and the engine default as effective voice. -/
theorem c5_setVoice_silent_fallback_witness :
    (changeListener 3 initState).speech.voice = none ∧
    effectiveVoice (changeListener 3 initState).speech voiceA = voiceA :=
  c5_setVoice_silent_fallback initState 3 voiceA (by decide)

/-- C6: After `setText("")` a `speak()` still reaches the engine: the
click listener with an empty textarea appends one entry to the queue (not
suppressed), and the enqueued object's text is the empty string — for
every prior configuration state. -/
theorem c6_empty_text_still_enqueued :
    ∀ s : ScriptState,
      (clickListener "" s).queue = s.queue ++ [speechAddr] ∧
      deref (clickListener "" s) speechAddr = some ((clickListener "" s).speech) ∧
      ((clickListener "" s).speech).text = "" :=
  fun _ => ⟨rfl, by simp [deref], rfl⟩

/-- C7: `cancel()` with an empty pending queue is a no-op: it does not
throw (it is a total function) and leaves the entire state unchanged. -/
theorem c7_cancel_empty_queue_noop :
    ∀ s : ScriptState, s.queue = [] → engineCancel s = s := by
  intro s h
  show { s with queue := [] } = s
  rw [← h]

/-- Witness for C7: cancelling in the initial state (nothing queued)
leaves the state unchanged. -/
theorem c7_cancel_empty_queue_noop_witness :
    engineCancel initState = initState :=
  c7_cancel_empty_queue_noop initState rfl

theorem le_clamp (lo hi v : Rat) : lo ≤ clamp lo hi v := le_max_left _ _

theorem clamp_le (lo hi v : Rat) (h : lo ≤ hi) : clamp lo hi v ≤ hi :=
  max_le h (min_le_left _ _)

theorem clamp_of_hi_lt (lo hi v : Rat) (hlo : lo ≤ hi) (h : hi < v) :
    clamp lo hi v = hi := by
  unfold clamp
  rw [min_eq_left h.le, max_eq_right hlo]

theorem clamp_of_lt_lo (lo hi v : Rat) (hlo : lo ≤ hi) (h : v < lo) :
    clamp lo hi v = lo := by
  unfold clamp
  rw [min_eq_right (h.le.trans hlo), max_eq_left h.le]

theorem clamp_of_mem (lo hi v : Rat) (h1 : lo ≤ v) (h2 : v ≤ hi) :
    clamp lo hi v = v := by
  unfold clamp
  rw [min_eq_right h2, max_eq_right h1]

/-- C2: Two `speak()` calls (button clicks) before the first utterance
has ended append exactly two entries at the tail of the engine's pending
queue, in call order, and do not preempt an utterance already playing:
the existing queue — in particular its head, the utterance currently
being spoken — is untouched. -/
theorem c2_double_speak_fifo :
    ∀ (s : ScriptState) (t1 t2 : String),
      (clickListener t2 (clickListener t1 s)).queue =
        s.queue ++ [speechAddr, speechAddr] ∧
      (s.queue ≠ [] →
        (clickListener t2 (clickListener t1 s)).queue.head? = s.queue.head?) := by
  intro s t1 t2
  have hq : (clickListener t2 (clickListener t1 s)).queue =
      s.queue ++ [speechAddr, speechAddr] := by
    show (s.queue ++ [speechAddr]) ++ [speechAddr] = _
    simp
  refine ⟨hq, fun hne => ?_⟩
  rw [hq]
  obtain ⟨a, l, h⟩ := List.exists_cons_of_ne_nil hne
  rw [h]
  rfl

/-- Witness for C2: with one utterance already queued, two further
clicks leave the queue head unchanged. -/
theorem c2_double_speak_fifo_witness :
    (clickListener "b" (clickListener "a" (clickListener "hi" initState))).queue.head? =
      (clickListener "hi" initState).queue.head? :=
  (c2_double_speak_fifo (clickListener "hi" initState) "a" "b").2 (by decide)

/-- C4: For every input, `setRate` clamps to the interval from 1/10 to
10, `setPitch` to 0..2 and `setVolume` to 0..1; an out-of-range input is
mapped to the nearest bound, an in-range input is kept, and no input is
rejected (the setters are total functions). -/
theorem c4_setters_clamp :
    ∀ (v : Rat) (u : SpeechSynthesisUtterance),
      (1/10 ≤ (setRate v u).rate ∧ (setRate v u).rate ≤ 10) ∧
      (0 ≤ (setPitch v u).pitch ∧ (setPitch v u).pitch ≤ 2) ∧
      (0 ≤ (setVolume v u).volume ∧ (setVolume v u).volume ≤ 1) ∧
      (10 < v → (setRate v u).rate = 10) ∧
      (v < 1/10 → (setRate v u).rate = 1/10) ∧
      (2 < v → (setPitch v u).pitch = 2) ∧
      (v < 0 → (setPitch v u).pitch = 0) ∧
      (1 < v → (setVolume v u).volume = 1) ∧
      (v < 0 → (setVolume v u).volume = 0) ∧
      (1/10 ≤ v → v ≤ 10 → (setRate v u).rate = v) ∧
      (0 ≤ v → v ≤ 2 → (setPitch v u).pitch = v) ∧
      (0 ≤ v → v ≤ 1 → (setVolume v u).volume = v) := by
  intro v u
  refine ⟨⟨le_clamp _ _ _, clamp_le _ _ _ (by norm_num)⟩,
          ⟨le_clamp _ _ _, clamp_le _ _ _ (by norm_num)⟩,
          ⟨le_clamp _ _ _, clamp_le _ _ _ (by norm_num)⟩,
          fun h => clamp_of_hi_lt _ _ _ (by norm_num) h,
          fun h => clamp_of_lt_lo _ _ _ (by norm_num) h,
          fun h => clamp_of_hi_lt _ _ _ (by norm_num) h,
          fun h => clamp_of_lt_lo _ _ _ (by norm_num) h,
          fun h => clamp_of_hi_lt _ _ _ (by norm_num) h,
          fun h => clamp_of_lt_lo _ _ _ (by norm_num) h,
          fun h1 h2 => clamp_of_mem _ _ _ h1 h2,
          fun h1 h2 => clamp_of_mem _ _ _ h1 h2,
          fun h1 h2 => clamp_of_mem _ _ _ h1 h2⟩

/-- Witness for C4: concrete clampings — `setRate(15)` gives 10,
`setRate(-1)` gives 1/10, `setPitch(3)` gives 2, `setVolume(2)` gives 1,
and the in-range `setRate(1)` is kept. -/
theorem c4_setters_clamp_witness :
    (setRate 15 newUtterance).rate = 10 ∧
    (setRate (-1) newUtterance).rate = 1/10 ∧
    (setPitch 3 newUtterance).pitch = 2 ∧
    (setVolume 2 newUtterance).volume = 1 ∧
    (setRate 1 newUtterance).rate = 1 :=
  ⟨(c4_setters_clamp 15 newUtterance).2.2.2.1 (by norm_num),
   (c4_setters_clamp (-1) newUtterance).2.2.2.2.1 (by norm_num),
   (c4_setters_clamp 3 newUtterance).2.2.2.2.2.1 (by norm_num),
   (c4_setters_clamp 2 newUtterance).2.2.2.2.2.2.2.1 (by norm_num),
   (c4_setters_clamp 1 newUtterance).2.2.2.2.2.2.2.2.2.1 (by norm_num) (by norm_num)⟩

/-- C8: `cancel()` clears the entire pending queue in every queue state,
and in the single-utterance lifecycle it is valid from any phase, forcing
the terminal `cleared` phase while firing no notification — in particular
no `ended` event; `pause()` and `resume()` touch only the current
playback (the paused flag), never the queue or the configuration. -/
theorem c8_cancel_queue_wide :
    (∀ s : ScriptState, (engineCancel s).queue = []) ∧
    (∀ s : ScriptState,
      (enginePause s).queue = s.queue ∧ (engineResume s).queue = s.queue ∧
      (enginePause s).speech = s.speech ∧ (engineResume s).speech = s.speech) ∧
    (∀ p : UttPhase, lifecycleStep p LifeEv.cancelE = some UttPhase.cleared) ∧
    isTerminalB UttPhase.cleared = true ∧
    notifOf LifeEv.cancelE = none := by
  refine ⟨fun s => rfl, fun s => ⟨rfl, rfl, rfl, rfl⟩, ?_, rfl, rfl⟩
  intro p
  cases p <;> rfl

/-- C9: In every reachable state exactly one utterance object has been
allocated, every entry of the engine's pending queue is a reference to
that one shared object, and therefore a `speak()` enqueues the shared
object itself: dereferencing any pending entry yields the current
configuration, whose text is whatever the latest mutation set. -/
theorem c9_single_shared_utterance :
    ∀ s : ScriptState, Reachable s →
      s.allocated = [speechAddr] ∧
      (∀ a ∈ s.queue, a = speechAddr) ∧
      (∀ t : String, ∀ a ∈ (clickListener t s).queue,
        deref (clickListener t s) a = some ((clickListener t s).speech) ∧
        ((clickListener t s).speech).text = t) := by
  intro s hs
  obtain ⟨h1, h2⟩ := reachable_alloc_queue hs
  refine ⟨h1, h2, fun t a ha => ?_⟩
  have ha' : a ∈ s.queue ++ [speechAddr] := ha
  have haddr : a = speechAddr := by
    rcases List.mem_append.mp ha' with h | h
    · exact h2 a h
    · simpa using h
  subst haddr
  exact ⟨by simp [deref], rfl⟩

/-- Witness for C9: in the initial state, a click enqueues a reference
that dereferences to the shared utterance with the clicked text. -/
theorem c9_single_shared_utterance_witness :
    deref (clickListener "hello" initState) speechAddr =
      some ((clickListener "hello" initState).speech) ∧
    ((clickListener "hello" initState).speech).text = "hello" :=
  (c9_single_shared_utterance initState Reachable.init).2.2 "hello" speechAddr
    (by decide)

/-- C10: The `onvoiceschanged` handler overwrites dropdown options only
at the indices of the new snapshot and never removes surplus options:
after a reload to a smaller snapshot every stale option is still present
unchanged, and selecting one (a value at or beyond the snapshot length)
sets the utterance's voice to the out-of-range lookup `undefined`
(`none`) without raising an error (the listener is a total function). -/
theorem c10_stale_options_persist :
    ∀ (s : ScriptState) (vs : List Voice),
      (∀ i : Nat, i < vs.length →
        (onvoiceschanged vs s).options.get? i =
          (vs.get? i).map fun v => { text := v.name, value := i }) ∧
      (∀ i : Nat, vs.length ≤ i →
        (onvoiceschanged vs s).options.get? i = s.options.get? i) ∧
      (∀ j : Nat, vs.length ≤ j →
        (changeListener j (onvoiceschanged vs s)).speech.voice = none) := by
  intro s vs
  refine ⟨fun i hi => ?_, fun i hi => ?_, fun j hj => ?_⟩
  · show (optionsOf 0 vs ++ s.options.drop (optionsOf 0 vs).length).get? i = _
    rw [List.get?_append (by rw [optionsOf_length]; exact hi), optionsOf_get?]
    simp
  · show (optionsOf 0 vs ++ s.options.drop (optionsOf 0 vs).length).get? i = _
    rw [List.get?_append_right (by rw [optionsOf_length]; exact hi),
      optionsOf_length, List.get?_drop]
    congr 1
    omega
  · show vs.get? j = none
    exact List.get?_eq_none.mpr hj

/-- Witness for C10: after reloading from `[voiceA, voiceB]` down to
`[voiceA]`, the stale option at index 1 is unchanged and selecting its
value 1 yields no voice. -/
theorem c10_stale_options_persist_witness :
    (onvoiceschanged [voiceA] (onvoiceschanged [voiceA, voiceB] initState)).options.get? 1 =
      (onvoiceschanged [voiceA, voiceB] initState).options.get? 1 ∧
    (changeListener 1
        (onvoiceschanged [voiceA] (onvoiceschanged [voiceA, voiceB] initState))).speech.voice =
      none :=
  ⟨(c10_stale_options_persist (onvoiceschanged [voiceA, voiceB] initState) [voiceA]).2.1
      1 (by decide),
   (c10_stale_options_persist (onvoiceschanged [voiceA, voiceB] initState) [voiceA]).2.2
      1 (by decide)⟩
